import Mathlib

/-!
Verification development for the projectanalysis-mcp static-analysis engine.

The repository's TypeScript core is shallowly embedded: tree-sitter syntax
trees become an inductive rose tree (`SyntaxNode`), the per-language analyzer
functions (`extractDependencies`, `calculateComplexity`, `analyzeFile`,
`analyzeBatch`), the project scanner (`buildStructureTree`), the secure path
validator (`validatePath`) and the hybrid cache (`get`/`set`) become
executable Lean functions translated from the source, with the filesystem,
the wall clock and the external tree-sitter / crypto libraries supplied as
explicit inputs.
-/

namespace ProjectAnalysis

/-! ## String helpers (modelling the JavaScript string operations used) -/

/-- Model of JavaScript `s.includes(pat)`: substring containment. -/
def strContainsSub (s pat : String) : Bool :=
  decide (pat.data <:+: s.data)

/-- Model of JavaScript `s.startsWith(pat)`. -/
def strStartsWith (s pat : String) : Bool :=
  decide (pat.data <+: s.data)

/-- Model of the regex replace `/['"]/g` with the empty string: drops every
single- and double-quote character (code points 39 and 34). -/
def stripQuotes (s : String) : String :=
  String.mk (s.data.filter (fun c => c ≠ Char.ofNat 39 ∧ c ≠ Char.ofNat 34))

/-- Model of `BaseLanguageAnalyzer.getFileExtension`: the match of the regex
for a dot followed by non-dot characters at the end of the path, or the empty
string when there is no match. -/
def getFileExtension (p : String) : String :=
  let rev := p.data.reverse
  let suffix := rev.takeWhile (fun c => c ≠ '.')
  match rev.drop suffix.length with
  | '.' :: _ => if suffix.isEmpty then "" else String.mk ('.' :: suffix.reverse)
  | _ => ""

/-! ## Syntax trees

Tree-sitter is an external library: its output for a given source text is an
input of the model.  A `SyntaxNode` carries the node type, the source text the
node spans (the role of `getNodeText`, which slices the file content by the
node's byte range), the start and end positions, the field name by which the
parent refers to the node (tree-sitter's named fields), and the ordered child
list (`node.child(i)`, field children included, as in tree-sitter). -/

inductive SyntaxNode : Type where
  | mk
      (fieldName : Option String)
      (nodeType : String)
      (text : String)
      (startRow startCol endRow endCol : Nat)
      (children : List SyntaxNode)

namespace SyntaxNode

def fieldName : SyntaxNode → Option String
  | .mk f _ _ _ _ _ _ _ => f

def nodeType : SyntaxNode → String
  | .mk _ t _ _ _ _ _ _ => t

def text : SyntaxNode → String
  | .mk _ _ x _ _ _ _ _ => x

def startRow : SyntaxNode → Nat
  | .mk _ _ _ r _ _ _ _ => r

def startCol : SyntaxNode → Nat
  | .mk _ _ _ _ c _ _ _ => c

def endRow : SyntaxNode → Nat
  | .mk _ _ _ _ _ r _ _ => r

def endCol : SyntaxNode → Nat
  | .mk _ _ _ _ _ _ c _ => c

def children : SyntaxNode → List SyntaxNode
  | .mk _ _ _ _ _ _ _ cs => cs

/-- `node.childForFieldName(f)`: the first child carrying field name `f`. -/
def childForFieldName (n : SyntaxNode) (f : String) : Option SyntaxNode :=
  n.children.find? (fun c => c.fieldName = some f)

/-- `node.child(i)`. -/
def child (n : SyntaxNode) (i : Nat) : Option SyntaxNode :=
  n.children.get? i

/-- `node.childCount`. -/
def childCount (n : SyntaxNode) : Nat :=
  n.children.length

end SyntaxNode

mutual

/-- The visit order of `traverseTree` (callback on the node, then on each
child left to right): a preorder listing of the tree. -/
def preorder : SyntaxNode → List SyntaxNode
  | .mk f t x a b c d cs => .mk f t x a b c d cs :: preorderList cs

def preorderList : List SyntaxNode → List SyntaxNode
  | [] => []
  | c :: cs => preorder c ++ preorderList cs

end

/-- First index at which `pat` occurs in `l` (model of JavaScript `indexOf`
on strings, character-indexed). -/
def idxOfAux (pat : List Char) : List Char → Nat → Option Nat
  | [], i => if pat = [] then some i else none
  | c :: rest, i =>
      if pat <+: (c :: rest) then some i else idxOfAux pat rest (i + 1)

/-- Model of JavaScript `s.indexOf(pat)`. -/
def strIndexOf (s pat : String) : Option Nat :=
  idxOfAux pat.data s.data 0

/-- Model of JavaScript `s.indexOf(pat, start)`. -/
def strIndexOfFrom (s pat : String) (start : Nat) : Option Nat :=
  (idxOfAux pat.data (s.data.drop start) 0).map (· + start)

/-- Model of JavaScript `s.split(sep)` for a one-character separator. -/
def splitOnChar (sep : Char) (s : String) : List String :=
  (s.data.splitOn sep).map String.mk

/-- Model of JavaScript `s.substring(a, b)` for `a ≤ b` (the only way the
source uses it). -/
def strSubstring (s : String) (a b : Nat) : String :=
  String.mk ((s.data.drop a).take (b - a))

/-! ## Data model (from the type declarations of the repository) -/

/-- `ISourceLocation`. -/
structure SourceLocation where
  line : Nat
  column : Nat
  endLine : Option Nat := none
  endColumn : Option Nat := none
  deriving DecidableEq, Repr

/-- `IDependency`; `depType` models the `type` field, a `DependencyType`
string such as "import", "require" or "dynamic-import". -/
structure Dependency where
  source : String
  target : String
  depType : String
  isResolved : Bool
  resolvedPath : Option String := none
  isExternal : Bool
  location : SourceLocation
  deriving DecidableEq, Repr

/-- `IHalsteadMetrics`; `vocabulary` and `length` are integer counts, the
derived quantities are floating-point as in the source. -/
structure HalsteadMetrics where
  vocabulary : Nat
  length : Nat
  difficulty : Float
  volume : Float
  effort : Float
  bugs : Float
  time : Float

/-- `IComplexityMetrics`. -/
structure ComplexityMetrics where
  cyclomatic : Nat
  cognitive : Nat
  halstead : HalsteadMetrics

/-- An exported symbol record (element type of `IFileAnalysis.exports`);
`exType` models the `type` field. -/
structure ExportInfo where
  name : String
  exType : String
  isDefault : Bool
  location : SourceLocation
  deriving DecidableEq, Repr

/-- An element of `IFileAnalysis.imports`; `aliasName` models `alias`. -/
structure ImportInfo where
  source : String
  imported : List String
  isNamespace : Bool
  aliasName : Option String := none
  location : SourceLocation
  deriving DecidableEq, Repr

/-- A function parameter record. -/
structure ParamInfo where
  name : String
  isOptional : Bool
  deriving DecidableEq, Repr

/-- An element of `IFileAnalysis.functions`. -/
structure FunctionInfo where
  name : String
  parameters : List ParamInfo
  isAsync : Bool
  isGenerator : Bool
  visibility : String
  location : SourceLocation
  complexity : Nat
  deriving DecidableEq, Repr

/-- An element of `IFileAnalysis.classes` (never produced by the analyzers
modelled here: the JavaScript analyzer does not override the base class's
empty default extractor). -/
structure ClassInfo where
  name : String
  location : SourceLocation
  deriving DecidableEq, Repr

/-- An element of `IFileAnalysis.variables` (never produced here, as for
`ClassInfo`). -/
structure VariableInfo where
  name : String
  location : SourceLocation
  deriving DecidableEq, Repr

/-- An element of `IFileAnalysis.comments`; `commentType` models `type`. -/
structure CommentInfo where
  content : String
  commentType : String
  location : SourceLocation
  deriving DecidableEq, Repr

/-- `IFileAnalysis` (without the opaque `ast` handle and the wall-clock
`analyzedAt` timestamp, which no claim mentions); `varDecls` models the
`variables` field. -/
structure FileAnalysis where
  filePath : String
  language : String
  dependencies : List Dependency
  exports : List ExportInfo
  imports : List ImportInfo
  metrics : ComplexityMetrics
  functions : List FunctionInfo
  classes : List ClassInfo
  varDecls : List VariableInfo
  comments : List CommentInfo

/-- A source file as the analyzers see it.  File content is read through the
file utilities; the two parse results are the outputs of the external
tree-sitter library for the two grammars the repository instantiates
(`TreeSitterParser('javascript')` and `TreeSitterParser('typescript')`),
supplied as inputs of the model. -/
structure SourceFile where
  path : String
  content : String
  parseJs : Except String SyntaxNode
  parseTs : Except String SyntaxNode

/-! ## Base analyzer helpers (`BaseLanguageAnalyzer`) -/

/-- `BaseLanguageAnalyzer.createDependency` (with `isResolved: false`). -/
def createDependency (source target depType : String) (location : SourceLocation)
    (isExternal : Bool) : Dependency :=
  { source, target, depType, isResolved := false, isExternal, location }

/-- `BaseLanguageAnalyzer.createEmptyAnalysis`: the short-circuit result for
zero-byte files.  Note the `cyclomatic := 0` written in the source. -/
def createEmptyAnalysis (language filePath : String) : FileAnalysis where
  filePath := filePath
  language := language
  dependencies := []
  exports := []
  imports := []
  metrics :=
    { cyclomatic := 0
      cognitive := 0
      halstead :=
        { vocabulary := 0, length := 0, difficulty := 0, volume := 0
          effort := 0, bugs := 0, time := 0 } }
  functions := []
  classes := []
  varDecls := []
  comments := []

/-- `BaseLanguageAnalyzer.chunkArray` core loop for a positive chunk size. -/
def chunkArrayGo (chunkSize : Nat) (hk : 0 < chunkSize) :
    List α → List (List α)
  | [] => []
  | a :: as =>
      (a :: as).take chunkSize :: chunkArrayGo chunkSize hk ((a :: as).drop chunkSize)
  termination_by l => l.length
  decreasing_by simp [List.length_drop]; omega

/-- `BaseLanguageAnalyzer.chunkArray`: slices `array` into consecutive chunks
of `chunkSize`.  (The source's `for` loop never terminates for a zero chunk
size; the only call site passes 4, so the zero case is mapped to `[]`.) -/
def chunkArray (l : List α) (chunkSize : Nat) : List (List α) :=
  if hk : 0 < chunkSize then chunkArrayGo chunkSize hk l else []

/-- `BaseLanguageAnalyzer.extractComments` processing of one line: a `//`
line comment when the trimmed line starts with `//`, plus a single-line
block (or doc) comment when `/*` and a following `*/` both occur. -/
def commentsOfLine (i : Nat) (line : String) : List CommentInfo :=
  let trimmed := line.trim
  let lineComment : List CommentInfo :=
    if strStartsWith trimmed "//" then
      [{ content := ((String.mk (trimmed.data.drop 2)).trim)
         commentType := "line"
         location := { line := i + 1, column := (strIndexOf line "//").getD 0 } }]
    else []
  let blockComment : List CommentInfo :=
    match strIndexOf line "/*" with
    | none => []
    | some blockStart =>
        match strIndexOfFrom line "*/" blockStart with
        | none => []
        | some blockEnd =>
            [{ content := (strSubstring line (blockStart + 2) blockEnd).trim
               commentType := if strStartsWith trimmed "/**" then "doc" else "block"
               location := { line := i + 1, column := blockStart } }]
  lineComment ++ blockComment

/-- `BaseLanguageAnalyzer.extractComments`: a line scan over the content
(empty lines are skipped by the `if (!line) continue` guard). -/
def extractComments (content : String) : List CommentInfo :=
  ((splitOnChar (Char.ofNat 10) content).enum.map
    (fun p => if p.2 = "" then [] else commentsOfLine p.1 p.2)).flatten

/-! ## JavaScript analyzer (`JavaScriptAnalyzer`, the reference language) -/

namespace JavaScriptAnalyzer

/-- `language`. -/
def language : String := "javascript"

/-- `supportedExtensions`. -/
def supportedExtensions : List String := [".js", ".jsx", ".mjs", ".cjs"]

/-- `priority`. -/
def priority : Nat := 1

/-- `nodeToLocation`. -/
def nodeToLocation (n : SyntaxNode) : SourceLocation where
  line := n.startRow + 1
  column := n.startCol
  endLine := some (n.endRow + 1)
  endColumn := some n.endCol

/-- `isExternalModule`: not relative, not absolute (the POSIX
`path.isAbsolute` test coincides with the leading-slash test). -/
def isExternalModule (moduleName : String) : Bool :=
  !(strStartsWith moduleName ".") && !(strStartsWith moduleName "/")
    && !(strStartsWith moduleName "/")

/-- `extractImportDependencies`: one `import`-kind dependency per
`import_statement` node that has a `source` field (quotes stripped). -/
def extractImportDependencies (n : SyntaxNode) (filePath : String) :
    List Dependency :=
  match n.childForFieldName "source" with
  | none => []
  | some sourceNode =>
      let src := stripQuotes sourceNode.text
      [createDependency filePath src "import" (nodeToLocation sourceNode)
        (isExternalModule src)]

/-- `extractRequireDependencies`: a `require`-kind dependency for a
`call_expression` whose callee text is literally `require` and whose first
argument is a string literal. -/
def extractRequireDependencies (n : SyntaxNode) (filePath : String) :
    List Dependency :=
  match n.childForFieldName "function" with
  | none => []
  | some functionNode =>
      if functionNode.text = "require" then
        match n.childForFieldName "arguments" with
        | none => []
        | some argumentsNode =>
            if argumentsNode.childCount > 0 then
              match argumentsNode.child 0 with
              | some firstArg =>
                  if firstArg.nodeType = "string" then
                    let src := stripQuotes firstArg.text
                    [createDependency filePath src "require"
                      (nodeToLocation firstArg) (isExternalModule src)]
                  else []
              | none => []
            else []
      else []

/-- `extractDynamicImports`: as `extractRequireDependencies` but for a
callee literally named `import`, yielding a `dynamic-import` dependency. -/
def extractDynamicImports (n : SyntaxNode) (filePath : String) :
    List Dependency :=
  match n.childForFieldName "function" with
  | none => []
  | some functionNode =>
      if functionNode.text = "import" then
        match n.childForFieldName "arguments" with
        | none => []
        | some argumentsNode =>
            if argumentsNode.childCount > 0 then
              match argumentsNode.child 0 with
              | some firstArg =>
                  if firstArg.nodeType = "string" then
                    let src := stripQuotes firstArg.text
                    [createDependency filePath src "dynamic-import"
                      (nodeToLocation firstArg) (isExternalModule src)]
                  else []
              | none => []
            else []
      else []

/-- The `switch (node.type)` body of `extractDependencies`'s traversal
callback.  The source lists `case 'call_expression'` twice — once routing to
`extractRequireDependencies` and once to `extractDynamicImports`; under
JavaScript `switch` semantics the first matching case wins, so the
dynamic-import arm is unreachable and only the require extractor runs for
call expressions. -/
def dependenciesAt (filePath : String) (n : SyntaxNode) : List Dependency :=
  if n.nodeType = "import_statement" then
    extractImportDependencies n filePath
  else if n.nodeType = "call_expression" then
    extractRequireDependencies n filePath
  else []

/-- `extractDependencies`: depth-first traversal collecting dependencies; a
read or parse failure is caught and degrades to the empty list. -/
def extractDependencies (f : SourceFile) : List Dependency :=
  match f.parseJs with
  | .error _ => []
  | .ok tree => (preorder tree).flatMap (dependenciesAt f.path)

/-- `isDecisionPoint`: the fixed decision-point node-type set. -/
def isDecisionPoint (n : SyntaxNode) : Bool :=
  ["if_statement", "while_statement", "for_statement", "for_in_statement",
   "for_of_statement", "switch_case", "catch_clause",
   "conditional_expression", "logical_expression"].contains n.nodeType

/-- `getCognitiveWeight`: the per-node cognitive-complexity weight table. -/
def getCognitiveWeight (n : SyntaxNode) : Nat :=
  if ["if_statement", "while_statement", "for_statement", "for_in_statement",
      "for_of_statement", "switch_case", "conditional_expression",
      "logical_expression"].contains n.nodeType then 1
  else if n.nodeType = "catch_clause" then 2
  else 0

/-- `isOperator`: the fixed operator node-type table. -/
def isOperator (n : SyntaxNode) : Bool :=
  ["+", "-", "*", "/", "%", "**",
   "=", "+=", "-=", "*=", "/=", "%=",
   "==", "!=", "===", "!==", "<", ">", "<=", ">=",
   "&&", "||", "!",
   "&", "|", "^", "~", "<<", ">>", ">>>",
   "++", "--",
   "?", ":",
   "typeof", "instanceof", "in", "new", "delete"].contains n.nodeType

/-- `isOperand`: the fixed operand node-type table. -/
def isOperand (n : SyntaxNode) : Bool :=
  ["identifier", "number", "string", "boolean", "null", "undefined",
   "this", "super"].contains n.nodeType

/-- Insertion into the model of a JavaScript `Set` of strings (first-seen
order, duplicates dropped; only the cardinality is consumed). -/
def setInsert (l : List String) (s : String) : List String :=
  if l.contains s then l else l ++ [s]

/-- The accumulator state of `calculateHalsteadMetrics`'s traversal:
distinct operators, operator occurrences, distinct operands, operand
occurrences. -/
structure HalsteadAcc where
  operators : List String
  operatorCount : Nat
  operands : List String
  operandCount : Nat

/-- `calculateHalsteadMetrics`: classify every visited node as operator or
operand, then derive the Halstead quantities. -/
def calculateHalsteadMetrics (tree : SyntaxNode) : HalsteadMetrics :=
  let acc := (preorder tree).foldl
    (fun (a : HalsteadAcc) n =>
      if isOperator n then
        { a with operators := setInsert a.operators n.text
                 operatorCount := a.operatorCount + 1 }
      else if isOperand n then
        { a with operands := setInsert a.operands n.text
                 operandCount := a.operandCount + 1 }
      else a)
    { operators := [], operatorCount := 0, operands := [], operandCount := 0 }
  let vocabulary := acc.operators.length + acc.operands.length
  let len := acc.operatorCount + acc.operandCount
  let difficulty : Float :=
    if vocabulary > 0 then
      ((Nat.toFloat acc.operators.length) / 2) *
        (if acc.operands.length > 0 then
          (Nat.toFloat acc.operandCount) / (Nat.toFloat acc.operands.length)
         else 0)
    else 0
  let volume : Float :=
    (Nat.toFloat len) *
      Float.log2 (Nat.toFloat (if vocabulary = 0 then 1 else vocabulary))
  let effort := difficulty * volume
  { vocabulary := vocabulary
    length := len
    difficulty := difficulty
    volume := volume
    effort := effort
    bugs := volume / 3000
    time := effort / 18 }

/-- The zero metrics returned by `calculateComplexity`'s `catch` arm. -/
def zeroMetrics : ComplexityMetrics where
  cyclomatic := 0
  cognitive := 0
  halstead :=
    { vocabulary := 0, length := 0, difficulty := 0, volume := 0
      effort := 0, bugs := 0, time := 0 }

/-- `calculateComplexity`: cyclomatic starts at 1 and increments at every
visited decision point; cognitive sums the per-node weights; a read or parse
failure degrades to zero metrics. -/
def calculateComplexity (f : SourceFile) : ComplexityMetrics :=
  match f.parseJs with
  | .error _ => zeroMetrics
  | .ok tree =>
      { cyclomatic :=
          (preorder tree).foldl
            (fun c n => if isDecisionPoint n then c + 1 else c) 1
        cognitive :=
          (preorder tree).foldl (fun c n => c + getCognitiveWeight n) 0
        halstead := calculateHalsteadMetrics tree }

/-- `getFunctionName` / `getClassName`: the text of the `name` field. -/
def getFunctionName (n : SyntaxNode) : Option String :=
  (n.childForFieldName "name").map SyntaxNode.text

/-- `getVariableNames`: the names of all `variable_declarator` descendants. -/
def getVariableNames (n : SyntaxNode) : List String :=
  (preorder n).foldl
    (fun acc c =>
      if c.nodeType = "variable_declarator" then
        match c.childForFieldName "name" with
        | some nameNode => acc ++ [nameNode.text]
        | none => acc
      else acc)
    []

/-- `extractExportStatement`: named exports carried by a declaration. -/
def extractExportStatement (n : SyntaxNode) : List ExportInfo :=
  match n.childForFieldName "declaration" with
  | none => []
  | some declarationNode =>
      let location := nodeToLocation declarationNode
      if declarationNode.nodeType = "function_declaration" then
        match getFunctionName declarationNode with
        | some name => [{ name, exType := "function", isDefault := false, location }]
        | none => []
      else if declarationNode.nodeType = "class_declaration" then
        match getFunctionName declarationNode with
        | some name => [{ name, exType := "class", isDefault := false, location }]
        | none => []
      else if declarationNode.nodeType = "variable_declaration" then
        (getVariableNames declarationNode).map
          (fun name => { name, exType := "variable", isDefault := false, location })
      else []

/-- `extractDefaultExport`. -/
def extractDefaultExport (n : SyntaxNode) : List ExportInfo :=
  match (n.childForFieldName "declaration") <|> n.child 1 with
  | none => []
  | some declarationNode =>
      let location := nodeToLocation declarationNode
      if declarationNode.nodeType = "function_declaration" then
        [{ name := (getFunctionName declarationNode).getD "default"
           exType := "function", isDefault := true, location }]
      else if declarationNode.nodeType = "class_declaration" then
        [{ name := (getFunctionName declarationNode).getD "default"
           exType := "class", isDefault := true, location }]
      else if declarationNode.nodeType = "identifier" then
        [{ name := declarationNode.text
           exType := "variable", isDefault := true, location }]
      else
        [{ name := "default", exType := "variable", isDefault := true, location }]

/-- `extractExports` traversal callback. -/
def exportsAt (n : SyntaxNode) : List ExportInfo :=
  if n.nodeType = "export_statement" then extractExportStatement n
  else if n.nodeType = "export_default_statement" then extractDefaultExport n
  else []

/-- `extractExports`. -/
def extractExports (tree : SyntaxNode) : List ExportInfo :=
  (preorder tree).flatMap exportsAt

/-- `extractImportStatement`: the source specifier plus the imported names
gathered from the statement's children. -/
def extractImportStatement (n : SyntaxNode) : Option ImportInfo :=
  match n.childForFieldName "source" with
  | none => none
  | some sourceNode =>
      let init : List String × Bool × Option String := ([], false, none)
      let acc := n.children.foldl
        (fun (a : List String × Bool × Option String) child =>
          if child.nodeType = "import_specifier" then
            match (child.childForFieldName "name").map SyntaxNode.text with
            | some s => (a.1 ++ [s], a.2.1, a.2.2)
            | none => a
          else if child.nodeType = "namespace_import" then
            (a.1, true,
              match (child.childForFieldName "alias").map SyntaxNode.text with
              | some s => some s
              | none => a.2.2)
          else if child.nodeType = "default_import" then
            if child.text ≠ "" then (a.1 ++ [child.text], a.2.1, a.2.2) else a
          else a)
        init
      some { source := stripQuotes sourceNode.text
             imported := acc.1
             isNamespace := acc.2.1
             aliasName := acc.2.2
             location := nodeToLocation n }

/-- `extractImports`. -/
def extractImports (tree : SyntaxNode) : List ImportInfo :=
  (preorder tree).foldl
    (fun acc n =>
      if n.nodeType = "import_statement" then
        match extractImportStatement n with
        | some info => acc ++ [info]
        | none => acc
      else acc)
    []

/-- `calculateFunctionComplexity`: 1 plus the decision points in the
function's subtree. -/
def calculateFunctionComplexity (n : SyntaxNode) : Nat :=
  (preorder n).foldl (fun c child => if isDecisionPoint child then c + 1 else c) 1

/-- `getFunctionParameters`: identifiers and formal parameters inside the
`parameters` field. -/
def getFunctionParameters (n : SyntaxNode) : List ParamInfo :=
  match n.childForFieldName "parameters" with
  | none => []
  | some parametersNode =>
      (preorder parametersNode).foldl
        (fun acc child =>
          if child.nodeType = "identifier" ∨ child.nodeType = "formal_parameter" then
            acc ++ [{ name := child.text, isOptional := false }]
          else acc)
        []

/-- `extractFunctionInfo`. -/
def extractFunctionInfo (n : SyntaxNode) : Option FunctionInfo :=
  match getFunctionName n with
  | none => none
  | some name =>
      some { name
             parameters := getFunctionParameters n
             isAsync := strContainsSub n.text "async"
             isGenerator := strContainsSub n.text "function*"
             visibility := "public"
             location := nodeToLocation n
             complexity := calculateFunctionComplexity n }

/-- `extractFunctions`. -/
def extractFunctions (tree : SyntaxNode) : List FunctionInfo :=
  (preorder tree).foldl
    (fun acc n =>
      if ["function_declaration", "function_expression", "arrow_function",
          "method_definition"].contains n.nodeType then
        match extractFunctionInfo n with
        | some info => acc ++ [info]
        | none => acc
      else acc)
    []

/-- `isSupported` of the base class, at this analyzer's extension list. -/
def isSupported (filePath : String) : Bool :=
  supportedExtensions.contains (getFileExtension filePath)

/-- `BaseLanguageAnalyzer.analyzeFile` as instantiated by the JavaScript
analyzer: extension gate, zero-byte short-circuit to `createEmptyAnalysis`,
parse, then assembly of the extractions (the base-class defaults leave
`classes` and `varDecls` empty).  Failures surface as a typed error. -/
def analyzeFile (f : SourceFile) : Except String FileAnalysis :=
  if !(isSupported f.path) then
    .error ("Unsupported file extension: " ++ f.path)
  else if f.content.length = 0 then
    .ok (createEmptyAnalysis language f.path)
  else
    match f.parseJs with
    | .error _ => .error ("Failed to analyze file: " ++ f.path)
    | .ok tree =>
        .ok { filePath := f.path
              language := language
              dependencies := extractDependencies f
              exports := extractExports tree
              imports := extractImports tree
              metrics := calculateComplexity f
              functions := extractFunctions tree
              classes := []
              varDecls := []
              comments := extractComments f.content }

/-- `BaseLanguageAnalyzer.analyzeBatch`: chunk the paths four at a time,
settle every file of a chunk, keep the fulfilled analyses in order and record
rejections on the side without aborting later chunks. -/
def analyzeBatch (files : List SourceFile) : List FileAnalysis :=
  (chunkArray files 4).foldl
    (fun results chunk =>
      results ++ chunk.foldl
        (fun rs f =>
          match analyzeFile f with
          | .ok a => rs ++ [a]
          | .error _ => rs)
        [])
    []

end JavaScriptAnalyzer

/-! ## TypeScript analyzer (`TypeScriptAnalyzer`) -/

namespace TypeScriptAnalyzer

/-- `language`. -/
def language : String := "typescript"

/-- `supportedExtensions`. -/
def supportedExtensions : List String := [".ts", ".tsx"]

/-- `priority` (higher than the JavaScript analyzer's 1). -/
def priority : Nat := 2

/-- `TypeScriptAnalyzer.extractDependencies`: the source constructs a fresh
`JavaScriptAnalyzer` over the same file utilities and delegates to it, so
the file is processed by the JavaScript analyzer (whose parser is the
JavaScript grammar). -/
def extractDependencies (f : SourceFile) : List Dependency :=
  JavaScriptAnalyzer.extractDependencies f

/-- `TypeScriptAnalyzer.calculateComplexity`: same delegation to a fresh
`JavaScriptAnalyzer`. -/
def calculateComplexity (f : SourceFile) : ComplexityMetrics :=
  JavaScriptAnalyzer.calculateComplexity f

end TypeScriptAnalyzer

/-! ## Secure file utilities (`FileUtils`) -/

namespace FileUtils

/-- POSIX path normalization: split on slashes, drop empty and `.` segments,
let `..` pop the previous segment — the normalization performed by Node's
`path.resolve` once the input is rooted. -/
def normalizeSegs (s : String) : String :=
  let segs := (splitOnChar '/' s).foldl
    (fun (acc : List String) seg =>
      if seg = "" ∨ seg = "." then acc
      else if seg = ".." then acc.dropLast
      else acc ++ [seg])
    []
  "/" ++ String.intercalate "/" segs

/-- Node `path.resolve(p)` on POSIX with working directory `cwd` (assumed
absolute): root relative inputs at `cwd`, then normalize. -/
def pathResolve (cwd p : String) : String :=
  if strStartsWith p "/" then normalizeSegs p
  else normalizeSegs (cwd ++ "/" ++ p)

/-- `ValidationResult`. -/
structure ValidationResult where
  isValid : Bool
  normalizedPath : Option String := none
  error : Option String := none
  deriving DecidableEq, Repr

/-- `FileUtils.validatePath` for a configured allow-list `allowedBasePaths`
and working directory `cwd`: reject empty input; reject inputs containing a
`..` sequence or a null byte before any path resolution; resolve; accept iff
the resolved path string-prefix-matches some resolved base.  The body makes
no filesystem call (Node's `path.resolve` is string manipulation over the
cached working directory), which the embedding reflects by being a pure
function of the three arguments. -/
def validatePath (allowedBasePaths : List String) (cwd : String)
    (inputPath : String) : ValidationResult :=
  if inputPath = "" then
    { isValid := false, error := some "Path must be a non-empty string" }
  else if strContainsSub inputPath ".." ∨ inputPath.data.contains (Char.ofNat 0) then
    { isValid := false, error := some "Path traversal detected" }
  else
    let normalizedPath := pathResolve cwd inputPath
    let isAllowed := allowedBasePaths.any
      (fun basePath => strStartsWith normalizedPath (pathResolve cwd basePath))
    if isAllowed then
      { isValid := true, normalizedPath := some normalizedPath }
    else
      { isValid := false
        error := some "Access denied: path outside allowed directories" }

end FileUtils

/-! ## Project scanner (`ProjectScanner`) -/

/-- The filesystem subtree under a path, as stored on disk: a file carries
the stat-derived attributes `buildStructureRecursive` copies into a file
node, a directory carries its directory entries in listing order.  What the
scanner actually *discovers* of these entries is narrower — see
`ProjectScanner.isDiscoveredFile`. -/
inductive FsEntry : Type where
  | file (name : String) (size : Nat) (extension language : String)
      (lastModified : Int)
  | dir (name : String) (lastModified : Int) (children : List FsEntry)

/-- The entry's basename (the `firstSegment` the scanner joins onto the
current path to form the child path). -/
def FsEntry.name : FsEntry → String
  | .file n _ _ _ _ => n
  | .dir n _ _ => n

/-- `IProjectStructure`: the tagged file/directory union the scanner
returns. -/
inductive ProjectStructure : Type where
  | file (path name : String) (size : Nat) (extension language : String)
      (lastModified : Int)
  | dir (path name : String) (children : List ProjectStructure)
      (lastModified : Int)
  deriving Repr

namespace ProjectStructure

def name : ProjectStructure → String
  | .file _ n _ _ _ _ => n
  | .dir _ n _ _ => n

def children : ProjectStructure → List ProjectStructure
  | .file _ _ _ _ _ _ => []
  | .dir _ _ cs _ => cs

end ProjectStructure

namespace ProjectScanner

/-- Insertion of one node into a name-sorted list: the stable sort
`children.sort((a, b) => a.name.localeCompare(b.name))`, modelled with the
standard string order. -/
def insertByName (x : ProjectStructure) :
    List ProjectStructure → List ProjectStructure
  | [] => [x]
  | y :: ys =>
      if x.name ≤ y.name then x :: y :: ys else y :: insertByName x ys

/-- The name sort applied to a directory's children. -/
def sortByName (l : List ProjectStructure) : List ProjectStructure :=
  l.foldr insertByName []

/-- The child discovery of `buildStructureRecursive`: it calls
`getAllFiles(currentPath, { includePatterns: ['*'], maxDepth: 1 })`, and
`getAllFiles` runs fast-glob with `onlyFiles: true`, `dot: false` and
`deep: 1` on the single-segment pattern `<dir>/*`, then drops files larger
than the 10 MB `maxFileSize` default.  That returns exactly the immediate
regular files that are not dot-prefixed and within the size cap — never a
subdirectory — so the `immediateChildren` set the scanner recurses over
contains only file paths.  (The default exclude globs such as
`node_modules/**` are all directory-prefixed and cannot match a
single-segment file path, so they are vacuous here.)  `buildChildren`
fuses this per-entry predicate into its loop, which is equivalent to
filtering first. -/
def isDiscoveredFile : FsEntry → Bool
  | .file name size _ _ _ =>
      !(strStartsWith name ".") && size ≤ 10 * 1024 * 1024
  | .dir _ _ _ => false

mutual

/-- `ProjectScanner.buildStructureRecursive`.  The depth guard throws once
`depth` exceeds `maxDepth` (`options.depth ?? 10`).  For a directory, the
children recursed over are the entries `isDiscoveredFile` accepts (files
only — the glob discovery never returns a subdirectory); discovery and the
recursive calls sit inside one `try` whose `catch` merely logs, so a
child's thrown error truncates the loop: the children collected before it
are kept and the error does not escape the parent. -/
def buildStructureRecursive (entry : FsEntry) (currentPath : String)
    (maxDepth : Int) (depth : Nat) : Except String ProjectStructure :=
  if (depth : Int) > maxDepth then
    .error ("Maximum depth exceeded: " ++ toString maxDepth)
  else
    match entry with
    | .dir name lastModified children =>
        let collected := buildChildren children currentPath maxDepth (depth + 1)
        .ok (.dir currentPath name (sortByName collected) lastModified)
    | .file name size extension language lastModified =>
        .ok (.file currentPath name size extension language lastModified)

/-- The `for (const childPath of immediateChildren)` loop under the parent's
`try`, over the discovered children — only the entries satisfying
`isDiscoveredFile`, since the files-only glob never reports a subdirectory:
successes accumulate in order; the first failure aborts the loop, and the
enclosing `catch` swallows the error, so the remaining children are dropped
silently.  The child path is `path.join(currentPath, firstSegment)`. -/
def buildChildren (entries : List FsEntry) (currentPath : String)
    (maxDepth : Int) (depth : Nat) : List ProjectStructure :=
  match entries with
  | [] => []
  | c :: rest =>
      if isDiscoveredFile c then
        match buildStructureRecursive c (currentPath ++ "/" ++ c.name)
            maxDepth depth with
        | .ok node => node :: buildChildren rest currentPath maxDepth depth
        | .error _ => []
      else buildChildren rest currentPath maxDepth depth

end

/-- `ProjectScanner.buildStructureTree`: validate the project path, then
recurse from depth 0; `options.depth` defaults to 10.  The filesystem input
is the subtree rooted at the (validated) path, whose basename is the root
entry's name. -/
def buildStructureTree (allowedBasePaths : List String) (cwd : String)
    (projectPath : String) (root : FsEntry) (optionsDepth : Option Int) :
    Except String ProjectStructure :=
  let validation := FileUtils.validatePath allowedBasePaths cwd projectPath
  if !validation.isValid then
    .error ("Invalid project path: " ++ (validation.error.getD ""))
  else
    buildStructureRecursive root (validation.normalizedPath.getD projectPath)
      (optionsDepth.getD 10) 0

end ProjectScanner

/-! ## Multi-tier cache (`HybridCacheManager`)

The wall clock (`Date.now()`) is an explicit `now : Int` argument; the
SHA-256 `hashKey` is an explicit `hash` function argument (the crypto
library is external); `estimateSize` (`JSON.stringify(value).length`) is an
explicit size function.  The asynchronous tier-3 write is modelled as
having completed. -/

namespace HybridCacheManager

/-- The behavioural subset of `ICacheOptions`, with the constructor's
defaults. -/
structure CacheOptions where
  memoryTtl : Int := 30 * 60 * 1000
  fileTtl : Int := 24 * 60 * 60 * 1000
  maxMemorySize : Nat := 100
  maxFileSize : Nat := 1000

/-- `ICacheEntry<T>`. -/
structure CacheEntry (V : Type) where
  value : V
  timestamp : Int
  ttl : Int
  accessCount : Nat
  size : Nat

/-- A tier-1 slot: the entry plus its last-touch time (the `lru-cache` tier
has its own TTL `memoryTtl` with `updateAgeOnGet`). -/
structure MemEntry (V : Type) where
  age : Int
  entry : CacheEntry V

/-- A tier-2 slot: the entry plus its insertion time and its `node-cache`
per-entry TTL in seconds (0 meaning no store-level expiry). -/
structure NodeEntry (V : Type) where
  setAt : Int
  ttlSec : Int
  entry : CacheEntry V

/-- The three tiers, hottest first; association lists keyed by the hashed
key, most recent first. -/
structure CacheState (V : Type) where
  memoryCache : List (String × MemEntry V)
  nodeCache : List (String × NodeEntry V)
  fileCache : List (String × CacheEntry V)

/-- The empty cache. -/
def CacheState.empty : CacheState V where
  memoryCache := []
  nodeCache := []
  fileCache := []

/-- `isValidEntry`: an entry is live while `now - timestamp < ttl`. -/
def isValidEntry (now : Int) (e : CacheEntry V) : Bool :=
  now - e.timestamp < e.ttl

/-- Association-list lookup by hashed key. -/
def tierFind (l : List (String × α)) (hk : String) : Option α :=
  (l.find? (fun p => p.1 = hk)).map Prod.snd

/-- Insert-or-replace at the front of a tier. -/
def tierInsert (l : List (String × α)) (hk : String) (v : α) :
    List (String × α) :=
  (hk, v) :: l.filter (fun p => p.1 ≠ hk)

/-- `lru-cache` `set`: insert at the most-recent position and evict beyond
the capacity bound. -/
def lruSet (opts : CacheOptions) (l : List (String × MemEntry V))
    (hk : String) (me : MemEntry V) : List (String × MemEntry V) :=
  (tierInsert l hk me).take opts.maxMemorySize

/-- `lru-cache` `get` under its store TTL: a hit only while the slot's age
is within `memoryTtl`. -/
def lruGet (opts : CacheOptions) (now : Int)
    (l : List (String × MemEntry V)) (hk : String) : Option (CacheEntry V) :=
  match tierFind l hk with
  | some me => if now - me.age < opts.memoryTtl then some me.entry else none
  | none => none

/-- `node-cache` `get` under its per-entry TTL (seconds; 0 = unlimited). -/
def nodeGet (now : Int) (l : List (String × NodeEntry V)) (hk : String) :
    Option (CacheEntry V) :=
  match tierFind l hk with
  | some ne =>
      if ne.ttlSec = 0 ∨ now - ne.setAt < ne.ttlSec * 1000 then some ne.entry
      else none
  | none => none

/-- `HybridCacheManager.set`: build the entry (timestamp `now`, TTL
`ttl ?? memoryTtl`, access count 1, estimated size), write tiers 1 and 2
synchronously and tier 3 (one file per hashed key) as well. -/
def set (opts : CacheOptions) (hash : String → String)
    (estimateSize : V → Nat) (st : CacheState V) (key : String) (value : V)
    (now : Int) (ttl : Option Int) : CacheState V :=
  let hashedKey := hash key
  let effectiveTtl := ttl.getD opts.memoryTtl
  let entry : CacheEntry V :=
    { value := value, timestamp := now, ttl := effectiveTtl
      accessCount := 1, size := estimateSize value }
  { memoryCache := lruSet opts st.memoryCache hashedKey
      { age := now, entry := entry }
    nodeCache := tierInsert st.nodeCache hashedKey
      { setAt := now, ttlSec := effectiveTtl / 1000, entry := entry }
    fileCache := tierInsert st.fileCache hashedKey entry }

/-- The tier-3 stage of `HybridCacheManager.get` (`getFromFileCache` plus
the promotions into tiers 1 and 2); an expired tier-3 entry's backing file
is unlinked on that miss. -/
def getFile (opts : CacheOptions) (st : CacheState V) (hashedKey : String)
    (now : Int) : Option V × CacheState V :=
  match tierFind st.fileCache hashedKey with
  | some fileEntry =>
      if isValidEntry now fileEntry then
        (some fileEntry.value,
          { st with
              nodeCache := (tierInsert st.nodeCache hashedKey
                { setAt := now, ttlSec := opts.memoryTtl / 1000
                  entry := fileEntry })
              memoryCache := (lruSet opts st.memoryCache hashedKey
                { age := now, entry := fileEntry }) })
      else
        (none,
          { st with
              fileCache := st.fileCache.filter (fun p => p.1 ≠ hashedKey) })
  | none => (none, st)

/-- The tier-2 stage of `HybridCacheManager.get`, with promotion into
tier 1 on a hit. -/
def getNode (opts : CacheOptions) (st : CacheState V) (hashedKey : String)
    (now : Int) : Option V × CacheState V :=
  match nodeGet now st.nodeCache hashedKey with
  | some nodeEntry =>
      if isValidEntry now nodeEntry then
        (some nodeEntry.value,
          { st with memoryCache := (lruSet opts st.memoryCache hashedKey
              { age := now, entry := nodeEntry }) })
      else
        getFile opts st hashedKey now
  | none => getFile opts st hashedKey now

/-- `HybridCacheManager.get`: tier 1, then tier 2, then tier 3; every
tier's entry is re-validated against its own TTL before being treated as a
hit. -/
def get (opts : CacheOptions) (hash : String → String) (st : CacheState V)
    (key : String) (now : Int) : Option V × CacheState V :=
  let hashedKey := hash key
  match lruGet opts now st.memoryCache hashedKey with
  | some memoryEntry =>
      if isValidEntry now memoryEntry then
        (some memoryEntry.value,
          { st with memoryCache := (lruSet opts st.memoryCache hashedKey
              { age := now, entry := memoryEntry }) })
      else
        getNode opts st hashedKey now
  | none => getNode opts st hashedKey now

end HybridCacheManager

/-! ## Measures used by the statements -/

mutual

/-- Height (number of levels) of a filesystem subtree. -/
def fsHeight : FsEntry → Nat
  | .file _ _ _ _ _ => 1
  | .dir _ _ cs => 1 + fsHeightList cs

def fsHeightList : List FsEntry → Nat
  | [] => 0
  | c :: cs => max (fsHeight c) (fsHeightList cs)

end

/-- Number of decision-point nodes the complexity traversal visits. -/
def countDecisionPoints (tree : SyntaxNode) : Nat :=
  (preorder tree).countP (fun n => JavaScriptAnalyzer.isDecisionPoint n)

/-! ## Concrete fixtures -/

/-- A chain of nested directories, `chainFs n` being `n + 1` levels deep
(every directory named `d`). -/
def chainFs : Nat → FsEntry
  | 0 => .dir "d" 0 []
  | n + 1 => .dir "d" 0 [chainFs n]

/-- A directory holding one ordinary regular file. -/
def fileChildDir : FsEntry :=
  .dir "p" 0 [.file "a.txt" 1 ".txt" "" 0]

/-- The parse of an empty source: a bare `program` node. -/
def emptyProgram : SyntaxNode := .mk none "program" "" 0 0 0 0 []

/-- A zero-byte `.js` file. -/
def emptyJs : SourceFile where
  path := "/proj/empty.js"
  content := ""
  parseJs := .ok emptyProgram
  parseTs := .ok emptyProgram

/-- The syntax tree of a dynamic `import("./x")` call, shaped exactly as
`extractDynamicImports` expects (callee field text `import`, first argument
child a string literal). -/
def dynStringArg : SyntaxNode := .mk none "string" "\"./x\"" 0 7 0 12 []

def dynFnNode : SyntaxNode := .mk (some "function") "import" "import" 0 0 0 6 []

def dynArgsNode : SyntaxNode :=
  .mk (some "arguments") "arguments" "(\"./x\")" 0 6 0 13 [dynStringArg]

def dynCallNode : SyntaxNode :=
  .mk none "call_expression" "import(\"./x\")" 0 0 0 13 [dynFnNode, dynArgsNode]

def dynProgram : SyntaxNode :=
  .mk none "program" "import(\"./x\")" 0 0 0 13 [dynCallNode]

/-- A `.js` file whose whole content is the dynamic import call. -/
def dynFile : SourceFile where
  path := "/proj/dyn.js"
  content := "import(\"./x\")"
  parseJs := .ok dynProgram
  parseTs := .ok dynProgram

/-- The dependency `extractDynamicImports` produces for that call. -/
def dynDep : Dependency where
  source := "/proj/dyn.js"
  target := "./x"
  depType := "dynamic-import"
  isResolved := false
  isExternal := false
  location := { line := 1, column := 7, endLine := some 1, endColumn := some 12 }

/-- The syntax tree of a `require("./util")` call. -/
def reqFnNode : SyntaxNode :=
  .mk (some "function") "identifier" "require" 0 0 0 7 []

def reqStringArg : SyntaxNode := .mk none "string" "\"./util\"" 0 8 0 16 []

def reqArgsNode : SyntaxNode :=
  .mk (some "arguments") "arguments" "(\"./util\")" 0 7 0 17 [reqStringArg]

def reqCallNode : SyntaxNode :=
  .mk none "call_expression" "require(\"./util\")" 0 0 0 17 [reqFnNode, reqArgsNode]

def reqProgram : SyntaxNode :=
  .mk none "program" "require(\"./util\")" 0 0 0 17 [reqCallNode]

/-- A `.js` file whose whole content is the require call. -/
def reqFile : SourceFile where
  path := "/proj/a.js"
  content := "require(\"./util\")"
  parseJs := .ok reqProgram
  parseTs := .ok reqProgram

/-- The dependency extracted from `reqFile`. -/
def reqDep : Dependency where
  source := "/proj/a.js"
  target := "./util"
  depType := "require"
  isResolved := false
  isExternal := false
  location := { line := 1, column := 8, endLine := some 1, endColumn := some 16 }

/-- A file with exactly one `if`, one `for` and one ternary (Scenario C). -/
def scenIfNode : SyntaxNode := .mk none "if_statement" "if (x) y;" 0 0 0 9 []

def scenForNode : SyntaxNode := .mk none "for_statement" "for (;;) z;" 1 0 1 11 []

def scenTernNode : SyntaxNode :=
  .mk none "conditional_expression" "a ? b : c" 2 0 2 9 []

def scenExprNode : SyntaxNode :=
  .mk none "expression_statement" "a ? b : c" 2 0 2 9 [scenTernNode]

def scenProgram : SyntaxNode :=
  .mk none "program" "if (x) y;\nfor (;;) z;\na ? b : c" 0 0 2 9
    [scenIfNode, scenForNode, scenExprNode]

def scenFile : SourceFile where
  path := "/proj/scen.js"
  content := "if (x) y;\nfor (;;) z;\na ? b : c"
  parseJs := .ok scenProgram
  parseTs := .ok scenProgram

/-! ## Helper lemmas -/

lemma foldl_ite_count (p : α → Bool) :
    ∀ (l : List α) (c : Nat),
      l.foldl (fun acc n => if p n then acc + 1 else acc) c = c + l.countP p
  | [], c => by simp
  | a :: l, c => by
      rw [List.foldl_cons, List.countP_cons]
      by_cases h : p a
      · simp only [h, if_true, if_pos]
        rw [foldl_ite_count p l (c + 1)]
        omega
      · simp only [h, if_false, Bool.false_eq_true, if_neg, not_false_iff]
        rw [foldl_ite_count p l c]
        omega

/-- The cyclomatic count of `calculateComplexity` equals one plus the number
of decision-point nodes visited. -/
lemma cyclomatic_eq (f : SourceFile) (tree : SyntaxNode)
    (h : f.parseJs = Except.ok tree) :
    (JavaScriptAnalyzer.calculateComplexity f).cyclomatic
      = 1 + countDecisionPoints tree := by
  unfold JavaScriptAnalyzer.calculateComplexity
  rw [h]
  simp only [countDecisionPoints]
  exact foldl_ite_count _ (preorder tree) 1

lemma mem_extractImport_ext {n : SyntaxNode} {p : String} {d : Dependency}
    (h : d ∈ JavaScriptAnalyzer.extractImportDependencies n p) :
    d.isExternal = JavaScriptAnalyzer.isExternalModule d.target := by
  unfold JavaScriptAnalyzer.extractImportDependencies at h
  split at h
  · simp at h
  · simp only [List.mem_singleton] at h
    subst h
    rfl

lemma mem_extractRequire_ext {n : SyntaxNode} {p : String} {d : Dependency}
    (h : d ∈ JavaScriptAnalyzer.extractRequireDependencies n p) :
    d.isExternal = JavaScriptAnalyzer.isExternalModule d.target := by
  unfold JavaScriptAnalyzer.extractRequireDependencies at h
  split at h
  · simp at h
  · split at h
    · split at h
      · simp at h
      · split at h
        · split at h
          · split at h
            · simp only [List.mem_singleton] at h
              subst h
              rfl
            · simp at h
          · simp at h
        · simp at h
    · simp at h

lemma mem_dependenciesAt_ext {p : String} {n : SyntaxNode} {d : Dependency}
    (h : d ∈ JavaScriptAnalyzer.dependenciesAt p n) :
    d.isExternal = JavaScriptAnalyzer.isExternalModule d.target := by
  unfold JavaScriptAnalyzer.dependenciesAt at h
  split at h
  · exact mem_extractImport_ext h
  · split at h
    · exact mem_extractRequire_ext h
    · simp at h

/-- Every dependency the JavaScript extractor returns carries the external
flag computed by `isExternalModule` on its own target. -/
lemma dep_isExternal (f : SourceFile) (d : Dependency)
    (h : d ∈ JavaScriptAnalyzer.extractDependencies f) :
    d.isExternal = JavaScriptAnalyzer.isExternalModule d.target := by
  unfold JavaScriptAnalyzer.extractDependencies at h
  split at h
  · simp at h
  · rw [List.mem_flatMap] at h
    obtain ⟨n, _, hd⟩ := h
    exact mem_dependenciesAt_ext hd

/-! ## Claim theorems -/

/-- C1.  A 12-level-deep directory chain scanned with `depth: 10` does NOT
make `buildStructureTree` throw — the caller receives a silently truncated
tree, here a single root node: child discovery goes through `getAllFiles`
(fast-glob, `onlyFiles: true`, single-segment pattern), which returns only
immediate regular files, so the scanner never recurses into subdirectories
at all and the depth guard is never even reached on this input (first and
second conjuncts).  The guard itself cannot signal the caller either: when
it does fire — a file child at depth 1 with `depth: 0` — the parent's
`catch` swallows the thrown error and returns the directory with its
children dropped (third conjunct); the error escapes only for a negative
bound, where the root itself trips the guard before any `try` (fourth
conjunct).  (The spec's claim that exceeding the bound is a thrown error is
the evident intent of the `Maximum depth exceeded` throw in the source; the
files-only discovery and the `catch` wrapping the recursive calls defeat
it.) -/
theorem C1_buildStructureTree_truncates :
    ProjectScanner.buildStructureTree ["/proj"] "/proj" "/proj/d"
        (chainFs 11) (some 10)
      = Except.ok (.dir "/proj/d" "d" [] 0)
    ∧ fsHeight (chainFs 11) = 12
    ∧ ProjectScanner.buildStructureTree ["/proj"] "/proj" "/proj/p"
          fileChildDir (some 0)
        = Except.ok (.dir "/proj/p" "p" [] 0)
    ∧ ProjectScanner.buildStructureTree ["/proj"] "/proj" "/proj/d"
          (chainFs 11) (some (-1))
        = Except.error "Maximum depth exceeded: -1" :=
  ⟨rfl, rfl, rfl, rfl⟩

/-- C3.  The dynamic-import arm of `extractDependencies` is dead code: on a
tree holding exactly the `import("./x")` call shape that
`extractDynamicImports` recognizes (second conjunct), `extractDependencies`
returns no dependency at all, because the duplicated
`case 'call_expression'` label routes every call expression to the require
extractor only. -/
theorem C3_dynamic_import_dead_code :
    JavaScriptAnalyzer.extractDependencies dynFile = []
      ∧ JavaScriptAnalyzer.extractDynamicImports dynCallNode "/proj/dyn.js"
          = [dynDep] :=
  ⟨rfl, rfl⟩

/-- C5.  Any input containing a `..` sequence or a null byte is rejected by
`validatePath` with the Security error `Path traversal detected`; the
rejection is a pure function of the input alone (the equation holds for
every allow-list and working directory, reflecting that the check precedes
any path resolution or filesystem access in the source). -/
theorem C5_validatePath_rejects_traversal (allowedBasePaths : List String)
    (cwd p : String)
    (h : strContainsSub p ".." = true
          ∨ p.data.contains (Char.ofNat 0) = true) :
    FileUtils.validatePath allowedBasePaths cwd p
      = { isValid := false, normalizedPath := none
          error := some "Path traversal detected" } := by
  unfold FileUtils.validatePath
  have hne : ¬(p = "") := by
    rintro rfl
    rcases h with h | h <;> simp [strContainsSub] at h
  rw [if_neg hne, if_pos h]

/-- Witness for C5 at the concrete traversal path `../etc/passwd`. -/
theorem C5_validatePath_rejects_traversal_witness :
    (strContainsSub "../etc/passwd" ".." = true
        ∨ ("../etc/passwd").data.contains (Char.ofNat 0) = true)
      ∧ FileUtils.validatePath ["/w"] "/w" "../etc/passwd"
          = { isValid := false, normalizedPath := none
              error := some "Path traversal detected" } :=
  ⟨Or.inl (by decide),
    C5_validatePath_rejects_traversal ["/w"] "/w" "../etc/passwd"
      (Or.inl (by decide))⟩

/-- C6.  For every file whose parse succeeds, the cyclomatic complexity is
exactly 1 plus the number of traversal-visited nodes whose type is in the
fixed decision-point set. -/
theorem C6_cyclomatic_decision_points (f : SourceFile) (tree : SyntaxNode)
    (h : f.parseJs = Except.ok tree) :
    (JavaScriptAnalyzer.calculateComplexity f).cyclomatic
      = 1 + countDecisionPoints tree :=
  cyclomatic_eq f tree h

/-- Witness for C6: the Scenario C file (one `if`, one `for`, one ternary)
has cyclomatic complexity 4. -/
theorem C6_cyclomatic_decision_points_witness :
    scenFile.parseJs = Except.ok scenProgram
      ∧ (JavaScriptAnalyzer.calculateComplexity scenFile).cyclomatic
          = 1 + countDecisionPoints scenProgram
      ∧ (JavaScriptAnalyzer.calculateComplexity scenFile).cyclomatic = 4 :=
  ⟨rfl, C6_cyclomatic_decision_points scenFile scenProgram rfl, rfl⟩

/-- C9.  The allow-list check is a raw string-prefix test: with allowed base
`/x/base`, the sibling path `/x/basement` — which is neither the base itself
nor under `base/` — validates successfully. -/
theorem C9_validatePath_prefix_escape :
    FileUtils.validatePath ["/x/base"] "/x" "/x/basement"
        = { isValid := true, normalizedPath := some "/x/basement"
            error := none }
      ∧ strStartsWith "/x/basement" "/x/base/" = false
      ∧ ("/x/basement" == "/x/base") = false :=
  ⟨rfl, by decide, by decide⟩

/-- C10.  The TypeScript analyzer's dependency extraction and complexity
computation coincide with the JavaScript analyzer's (the source delegates to
a freshly constructed `JavaScriptAnalyzer`), and they depend only on the
file's path and its JavaScript-grammar parse: two files agreeing on those —
whatever their TypeScript-grammar parses — get identical results. -/
theorem C10_typescript_delegates (f g : SourceFile) :
    TypeScriptAnalyzer.extractDependencies f
        = JavaScriptAnalyzer.extractDependencies f
      ∧ TypeScriptAnalyzer.calculateComplexity f
          = JavaScriptAnalyzer.calculateComplexity f
      ∧ (f.parseJs = g.parseJs → f.path = g.path →
          TypeScriptAnalyzer.extractDependencies f
              = TypeScriptAnalyzer.extractDependencies g
            ∧ TypeScriptAnalyzer.calculateComplexity f
                = TypeScriptAnalyzer.calculateComplexity g) := by
  refine ⟨rfl, rfl, fun h1 h2 => ⟨?_, ?_⟩⟩
  · unfold TypeScriptAnalyzer.extractDependencies
      JavaScriptAnalyzer.extractDependencies
    rw [h1, h2]
  · unfold TypeScriptAnalyzer.calculateComplexity
      JavaScriptAnalyzer.calculateComplexity
    rw [h1]

/-- A `.ts` file fixture for the C10 witness. -/
def tsFileA : SourceFile where
  path := "/proj/t.ts"
  content := "let x = 1"
  parseJs := .ok emptyProgram
  parseTs := .ok scenProgram

/-- A second fixture agreeing with `tsFileA` on path and JavaScript parse
but differing in content and TypeScript parse. -/
def tsFileB : SourceFile where
  path := "/proj/t.ts"
  content := "let y = 2"
  parseJs := .ok emptyProgram
  parseTs := .error "typescript parse unavailable"

/-- Witness for C10 at the two concrete fixtures. -/
theorem C10_typescript_delegates_witness :
    tsFileA.parseJs = tsFileB.parseJs ∧ tsFileA.path = tsFileB.path
      ∧ (TypeScriptAnalyzer.extractDependencies tsFileA
            = TypeScriptAnalyzer.extractDependencies tsFileB
          ∧ TypeScriptAnalyzer.calculateComplexity tsFileA
              = TypeScriptAnalyzer.calculateComplexity tsFileB) :=
  ⟨rfl, rfl, (C10_typescript_delegates tsFileA tsFileB).2.2 rfl rfl⟩

/-- C7.  The external flag of every extracted dependency is the pure
function of its target that is false exactly on specifiers starting with
`.` or `/`; concretely false for `./a`, `../b`, `/abs/c` and true for
`lodash`, `@scope/pkg`. -/
theorem C7_external_flag :
    (∀ (f : SourceFile) (d : Dependency),
        d ∈ JavaScriptAnalyzer.extractDependencies f →
          d.isExternal
            = (!(strStartsWith d.target ".") && !(strStartsWith d.target "/")))
      ∧ JavaScriptAnalyzer.isExternalModule "./a" = false
      ∧ JavaScriptAnalyzer.isExternalModule "../b" = false
      ∧ JavaScriptAnalyzer.isExternalModule "/abs/c" = false
      ∧ JavaScriptAnalyzer.isExternalModule "lodash" = true
      ∧ JavaScriptAnalyzer.isExternalModule "@scope/pkg" = true := by
  refine ⟨fun f d hd => ?_, by decide, by decide, by decide, by decide,
    by decide⟩
  rw [dep_isExternal f d hd]
  unfold JavaScriptAnalyzer.isExternalModule
  cases strStartsWith d.target "." <;> cases strStartsWith d.target "/" <;> rfl

/-- Witness for C7 at the `require("./util")` fixture. -/
theorem C7_external_flag_witness :
    reqDep ∈ JavaScriptAnalyzer.extractDependencies reqFile
      ∧ reqDep.isExternal
          = (!(strStartsWith reqDep.target ".")
              && !(strStartsWith reqDep.target "/")) :=
  ⟨by decide, C7_external_flag.1 reqFile reqDep (by decide)⟩

/-- C2 (counterexample).  The zero-byte `.js` file is analyzed to a
`FileAnalysis` whose cyclomatic complexity is 0, not 1 as claimed. -/
theorem C2_empty_cyclomatic_zero_cex :
    (JavaScriptAnalyzer.analyzeFile emptyJs).map (fun a => a.metrics.cyclomatic)
        = Except.ok 0
      ∧ (((JavaScriptAnalyzer.analyzeFile emptyJs).map
            (fun a => a.metrics.cyclomatic)).toOption == some 1) = false :=
  ⟨rfl, rfl⟩

/-- C2 (amended).  A zero-byte file yields the empty analysis with
cyclomatic 0 (not 1); the analysis of any nonempty file has cyclomatic ≥ 1. -/
theorem C2_analyzeFile_empty_and_min (f : SourceFile) (a : FileAnalysis)
    (h : JavaScriptAnalyzer.analyzeFile f = Except.ok a) :
    (f.content.length = 0 →
        a.dependencies = [] ∧ a.exports = [] ∧ a.imports = []
          ∧ a.functions = [] ∧ a.classes = [] ∧ a.varDecls = []
          ∧ a.metrics.cyclomatic = 0)
      ∧ (f.content.length ≠ 0 → 1 ≤ a.metrics.cyclomatic) := by
  unfold JavaScriptAnalyzer.analyzeFile at h
  by_cases hs : JavaScriptAnalyzer.isSupported f.path
  · by_cases h0 : f.content.length = 0
    · refine ⟨fun _ => ?_, fun hne => absurd h0 hne⟩
      simp only [hs, h0, Bool.not_true, Bool.false_eq_true, if_false, if_true,
        Except.ok.injEq, if_neg, if_pos] at h
      subst h
      exact ⟨rfl, rfl, rfl, rfl, rfl, rfl, rfl⟩
    · refine ⟨fun h0' => absurd h0' h0, fun _ => ?_⟩
      cases hp : f.parseJs with
      | error e =>
          rw [hp] at h
          simp [hs, h0] at h
      | ok tree =>
          rw [hp] at h
          simp only [hs, h0, Bool.not_true, Bool.false_eq_true, if_false,
            if_neg, Except.ok.injEq] at h
          subst h
          show 1 ≤ (JavaScriptAnalyzer.calculateComplexity f).cyclomatic
          rw [cyclomatic_eq f tree hp]
          omega
  · simp [hs] at h

/-- Witness for C2 at the zero-byte fixture. -/
theorem C2_analyzeFile_empty_and_min_witness :
    JavaScriptAnalyzer.analyzeFile emptyJs
        = Except.ok (createEmptyAnalysis "javascript" "/proj/empty.js")
      ∧ ((createEmptyAnalysis "javascript" "/proj/empty.js").dependencies = []
          ∧ (createEmptyAnalysis "javascript" "/proj/empty.js").exports = []
          ∧ (createEmptyAnalysis "javascript" "/proj/empty.js").imports = []
          ∧ (createEmptyAnalysis "javascript" "/proj/empty.js").functions = []
          ∧ (createEmptyAnalysis "javascript" "/proj/empty.js").classes = []
          ∧ (createEmptyAnalysis "javascript" "/proj/empty.js").varDecls = []
          ∧ (createEmptyAnalysis
              "javascript" "/proj/empty.js").metrics.cyclomatic = 0) :=
  ⟨rfl, (C2_analyzeFile_empty_and_min emptyJs
      (createEmptyAnalysis "javascript" "/proj/empty.js") rfl).1 rfl⟩

/-! ## Batch analysis lemmas (towards C8) -/

lemma chunkArrayGo_flatten_le (k : Nat) (hk : 0 < k) :
    ∀ (n : Nat) (l : List α), l.length ≤ n →
      (chunkArrayGo k hk l).flatten = l
        ∧ ((chunkArrayGo k hk l).all (fun c => decide (c.length ≤ k))) = true := by
  intro n
  induction n with
  | zero =>
      intro l hl
      have : l = [] := List.length_eq_zero.mp (Nat.le_zero.mp hl)
      subst this
      simp [chunkArrayGo]
  | succ n ih =>
      intro l hl
      match l with
      | [] => simp [chunkArrayGo]
      | a :: as =>
          have hdrop : ((a :: as).drop k).length ≤ n := by
            simp only [List.length_cons] at hl
            simp only [List.length_drop, List.length_cons]
            omega
          obtain ⟨ih1, ih2⟩ := ih ((a :: as).drop k) hdrop
          rw [chunkArrayGo]
          refine ⟨?_, ?_⟩
          · rw [List.flatten_cons, ih1]
            exact List.take_append_drop k (a :: as)
          · rw [List.all_cons, ih2]
            simp [List.length_take]

lemma analyzeFile_foldl (chunk : List SourceFile) :
    ∀ acc : List FileAnalysis,
      chunk.foldl
          (fun rs f =>
            match JavaScriptAnalyzer.analyzeFile f with
            | .ok a => rs ++ [a]
            | .error _ => rs)
          acc
        = acc ++ chunk.filterMap
            (fun f => (JavaScriptAnalyzer.analyzeFile f).toOption) := by
  induction chunk with
  | nil => simp
  | cons f fs ih =>
      intro acc
      rw [List.foldl_cons, List.filterMap_cons]
      cases hf : JavaScriptAnalyzer.analyzeFile f with
      | ok a => simp [hf, ih, Except.toOption]
      | error e => simp [hf, ih, Except.toOption]

lemma analyzeBatch_foldl (chunks : List (List SourceFile)) :
    ∀ acc : List FileAnalysis,
      chunks.foldl
          (fun results chunk =>
            results ++ chunk.foldl
              (fun rs f =>
                match JavaScriptAnalyzer.analyzeFile f with
                | .ok a => rs ++ [a]
                | .error _ => rs)
              [])
          acc
        = acc ++ chunks.flatten.filterMap
            (fun f => (JavaScriptAnalyzer.analyzeFile f).toOption) := by
  induction chunks with
  | nil => simp
  | cons c cs ih =>
      intro acc
      rw [List.foldl_cons, ih, analyzeFile_foldl c, List.flatten_cons,
        List.filterMap_append]
      simp

/-- C8.  `analyzeBatch` partitions its input into chunks of (at most) 4
whose concatenation is the input, and returns exactly the analyses of the
succeeding files, in order: one file's failure neither aborts later chunks
nor drops completed sibling results. -/
theorem C8_analyzeBatch_partial_failure (files : List SourceFile) :
    JavaScriptAnalyzer.analyzeBatch files
        = files.filterMap (fun f => (JavaScriptAnalyzer.analyzeFile f).toOption)
      ∧ (chunkArray files 4).flatten = files
      ∧ ((chunkArray files 4).all (fun c => decide (c.length ≤ 4))) = true := by
  have hchunk := chunkArrayGo_flatten_le 4 (by omega) files.length files le_rfl
  have hca : chunkArray files 4 = chunkArrayGo 4 (by omega) files := by
    unfold chunkArray
    rw [dif_pos (by omega)]
  refine ⟨?_, by rw [hca]; exact hchunk.1, by rw [hca]; exact hchunk.2⟩
  unfold JavaScriptAnalyzer.analyzeBatch
  rw [analyzeBatch_foldl, hca, hchunk.1]
  simp

/-! ## Cache lemmas (towards C4) -/

namespace HybridCacheManager

lemma tierFind_tierInsert_self (l : List (String × α)) (hk : String) (x : α) :
    tierFind (tierInsert l hk x) hk = some x := by
  unfold tierFind tierInsert
  rw [List.find?_cons_of_pos _ (by simp)]
  rfl

lemma tierFind_lruSet_self (opts : CacheOptions)
    (l : List (String × MemEntry V)) (hk : String) (me : MemEntry V)
    (h3 : 0 < opts.maxMemorySize) :
    tierFind (lruSet opts l hk me) hk = some me := by
  unfold lruSet tierInsert tierFind
  obtain ⟨m, hm⟩ := Nat.exists_eq_succ_of_ne_zero (Nat.pos_iff_ne_zero.mp h3)
  rw [hm, List.take_succ_cons, List.find?_cons_of_pos _ (by simp)]
  rfl

lemma tierFind_filter_ne (l : List (String × α)) (hk : String) :
    tierFind (l.filter (fun p => p.1 ≠ hk)) hk = none := by
  unfold tierFind
  rw [List.find?_eq_none.mpr]
  · rfl
  · intro x hx
    have hmem := List.of_mem_filter hx
    simp only [decide_not, Bool.not_eq_true', decide_eq_false_iff_not] at hmem
    simpa using hmem

end HybridCacheManager

/-- C4.  Writing a key and reading it back with no intervening expiry
returns the value (served from tier 1); once the entry's TTL has elapsed
(`now - timestamp ≥ ttl`) the same read misses at every tier and the
expired tier-3 entry's backing file is deleted by that read.  The SHA-256
key hash, the size estimator and the clock are explicit model inputs. -/
theorem C4_cache_set_get_ttl (V : Type) (opts : HybridCacheManager.CacheOptions)
    (hash : String → String) (estimateSize : V → Nat)
    (st : HybridCacheManager.CacheState V) (k : String) (v : V)
    (t0 t1 : Int) (ttl : Option Int)
    (h1 : 0 < ttl.getD opts.memoryTtl)
    (h2 : 0 < opts.memoryTtl)
    (h3 : 0 < opts.maxMemorySize)
    (h4 : ttl.getD opts.memoryTtl ≤ t1 - t0) :
    (HybridCacheManager.get opts hash
        (HybridCacheManager.set opts hash estimateSize st k v t0 ttl) k t0).1
        = some v
      ∧ (HybridCacheManager.get opts hash
          (HybridCacheManager.set opts hash estimateSize st k v t0 ttl) k t1).1
          = none
      ∧ HybridCacheManager.tierFind
          ((HybridCacheManager.get opts hash
            (HybridCacheManager.set opts hash estimateSize st k v t0 ttl)
            k t1).2.fileCache)
          (hash k) = none := by
  classical
  open HybridCacheManager in
  -- the entry built by `set`
  refine ?_
  set ttlE := ttl.getD opts.memoryTtl with httlE
  set entryV : HybridCacheManager.CacheEntry V :=
    { value := v, timestamp := t0, ttl := ttlE, accessCount := 1
      size := estimateSize v } with hentryV
  set st1 := HybridCacheManager.set opts hash estimateSize st k v t0 ttl
    with hst1
  have hmemEq : st1.memoryCache
      = HybridCacheManager.lruSet opts st.memoryCache (hash k)
          { age := t0, entry := entryV } := rfl
  have hnodeEq : st1.nodeCache
      = HybridCacheManager.tierInsert st.nodeCache (hash k)
          { setAt := t0, ttlSec := ttlE / 1000, entry := entryV } := rfl
  have hfileEq : st1.fileCache
      = HybridCacheManager.tierInsert st.fileCache (hash k) entryV := rfl
  have hmem : HybridCacheManager.tierFind st1.memoryCache (hash k)
      = some { age := t0, entry := entryV } := by
    rw [hmemEq]
    exact HybridCacheManager.tierFind_lruSet_self opts _ _ _ h3
  have hnode : HybridCacheManager.tierFind st1.nodeCache (hash k)
      = some { setAt := t0, ttlSec := ttlE / 1000, entry := entryV } := by
    rw [hnodeEq]
    exact HybridCacheManager.tierFind_tierInsert_self _ _ _
  have hfile : HybridCacheManager.tierFind st1.fileCache (hash k)
      = some entryV := by
    rw [hfileEq]
    exact HybridCacheManager.tierFind_tierInsert_self _ _ _
  have hvalid0 : HybridCacheManager.isValidEntry t0 entryV = true := by
    unfold HybridCacheManager.isValidEntry
    simp only [hentryV, decide_eq_true_eq]
    omega
  have hinvalid : HybridCacheManager.isValidEntry t1 entryV = false := by
    unfold HybridCacheManager.isValidEntry
    simp only [hentryV, decide_eq_false_iff_not]
    omega
  -- part 1: immediate read is a tier-1 hit
  have hlru0 : HybridCacheManager.lruGet opts t0 st1.memoryCache (hash k)
      = some entryV := by
    unfold HybridCacheManager.lruGet
    simp [hmem, h2]
  have part1 : (HybridCacheManager.get opts hash st1 k t0).1 = some v := by
    unfold HybridCacheManager.get
    simp only [hlru0]
    simp [hvalid0]
  -- the expired read reaches tier 3 and unlinks the file
  have hgetFile : HybridCacheManager.getFile opts st1 (hash k) t1
      = (none,
          { st1 with
              fileCache := st1.fileCache.filter
                (fun p => p.1 ≠ hash k) }) := by
    unfold HybridCacheManager.getFile
    simp [hfile, hinvalid]
  have hgetNode : HybridCacheManager.getNode opts st1 (hash k) t1
      = (none,
          { st1 with
              fileCache := st1.fileCache.filter
                (fun p => p.1 ≠ hash k) }) := by
    unfold HybridCacheManager.getNode HybridCacheManager.nodeGet
    simp only [hnode]
    by_cases hsec : ttlE / 1000 = 0 ∨ t1 - t0 < ttlE / 1000 * 1000
    · rw [if_pos hsec]
      simp [hinvalid, hgetFile]
    · rw [if_neg hsec]
      simp [hgetFile]
  have hlru1 : HybridCacheManager.lruGet opts t1 st1.memoryCache (hash k)
      = if t1 - t0 < opts.memoryTtl then some entryV else none := by
    unfold HybridCacheManager.lruGet
    simp [hmem]
  have part2 : HybridCacheManager.get opts hash st1 k t1
      = (none,
          { st1 with
              fileCache := st1.fileCache.filter
                (fun p => p.1 ≠ hash k) }) := by
    unfold HybridCacheManager.get
    simp only [hlru1]
    by_cases hm : t1 - t0 < opts.memoryTtl
    · rw [if_pos hm]
      simp [hinvalid, hgetNode]
    · rw [if_neg hm]
      simp [hgetNode]
  refine ⟨part1, ?_, ?_⟩
  · rw [part2]
  · rw [part2]
    exact HybridCacheManager.tierFind_filter_ne _ _

/-- Witness for C4 with the default cache options, the identity key hash, a
trivial size estimator, key `key`, value 42, a 1000 ms TTL, write at time 0
and expired read at time 1000. -/
theorem C4_cache_set_get_ttl_witness :
    (0 : Int) < (some (1000 : Int)).getD
        ({} : HybridCacheManager.CacheOptions).memoryTtl
      ∧ ((HybridCacheManager.get ({} : HybridCacheManager.CacheOptions)
            (fun s => s)
            (HybridCacheManager.set ({} : HybridCacheManager.CacheOptions)
              (fun s => s) (fun _ => 0) HybridCacheManager.CacheState.empty
              "key" (42 : Nat) 0 (some 1000))
            "key" 0).1 = some 42
          ∧ (HybridCacheManager.get ({} : HybridCacheManager.CacheOptions)
              (fun s => s)
              (HybridCacheManager.set ({} : HybridCacheManager.CacheOptions)
                (fun s => s) (fun _ => 0) HybridCacheManager.CacheState.empty
                "key" (42 : Nat) 0 (some 1000))
              "key" 1000).1 = none
          ∧ HybridCacheManager.tierFind
              ((HybridCacheManager.get ({} : HybridCacheManager.CacheOptions)
                (fun s => s)
                (HybridCacheManager.set ({} : HybridCacheManager.CacheOptions)
                  (fun s => s) (fun _ => 0) HybridCacheManager.CacheState.empty
                  "key" (42 : Nat) 0 (some 1000))
                "key" 1000).2.fileCache)
              "key" = none) :=
  ⟨by decide,
    C4_cache_set_get_ttl Nat {} (fun s => s) (fun _ => 0)
      HybridCacheManager.CacheState.empty "key" 42 0 1000 (some 1000)
      (by decide) (by decide) (by decide) (by decide)⟩

end ProjectAnalysis
